import Mathlib

/-!
Verification of the Asta backend (src/server.js): the payment-confirmation
pipeline (`/verify-payment`), its sibling contact/about pipelines, the Excel
mirror append, and the listing endpoints.

The embedding models machine behaviour shallowly:
* the HMAC-SHA256 signature check is implemented concretely over UTF-8 byte
  lists (`Nat` bytes, 32-bit words as `Nat` reduced modulo `2^32`);
* the PostgreSQL tables are lists of records plus a serial counter per table;
* each workbook's single sheet is modelled by its `sheet_to_json` row list,
  a list of (label, cell) pairs per row;
* the independently fallible collaborators (the Excel file system write, the
  nodemailer send, and the defensive re-select inside the transaction) are
  driven by fault-injection flags in an `Env`, mirroring the promise
  rejection paths of the source.
-/

/-! ## HMAC-SHA256 over byte lists

Embeds the behaviour of Node's `crypto.createHmac('sha256', secret).update(body).digest('hex')`
as used at src/server.js:345-348 (FIPS 180-4 / RFC 2104).
-/

/-- Reduce to a 32-bit word. -/
def w32 (n : Nat) : Nat := n % 4294967296

/-- 32-bit addition. -/
def add32 (a b : Nat) : Nat := (a + b) % 4294967296

/-- 32-bit right rotation. -/
def rotr32 (n x : Nat) : Nat := w32 ((x >>> n) ||| (x <<< (32 - n)))

/-- SHA-256 round constants. -/
def sha256K : List Nat :=
  [1116352408, 1899447441, 3049323471, 3921009573, 961987163, 1508970993, 2453635748, 2870763221,
   3624381080, 310598401, 607225278, 1426881987, 1925078388, 2162078206, 2614888103, 3248222580,
   3835390401, 4022224774, 264347078, 604807628, 770255983, 1249150122, 1555081692, 1996064986,
   2554220882, 2821834349, 2952996808, 3210313671, 3336571891, 3584528711, 113926993, 338241895,
   666307205, 773529912, 1294757372, 1396182291, 1695183700, 1986661051, 2177026350, 2456956037,
   2730485921, 2820302411, 3259730800, 3345764771, 3516065817, 3600352804, 4094571909, 275423344,
   430227734, 506948616, 659060556, 883997877, 958139571, 1322822218, 1537002063, 1747873779,
   1955562222, 2024104815, 2227730452, 2361852424, 2428436474, 2756734187, 3204031479, 3329325298]

/-- SHA-256 initial hash state. -/
def sha256H0 : List Nat :=
  [1779033703, 3144134277, 1013904242, 2773480762, 1359893119, 2600822924, 528734635, 1541459225]

/-- Message-schedule small sigma 0. -/
def smallSigma0 (x : Nat) : Nat := (rotr32 7 x) ^^^ (rotr32 18 x) ^^^ (x >>> 3)

/-- Message-schedule small sigma 1. -/
def smallSigma1 (x : Nat) : Nat := (rotr32 17 x) ^^^ (rotr32 19 x) ^^^ (x >>> 10)

/-- Extend a 16-word message block, one extra schedule word per step. -/
def sha256Extend (ws : List Nat) : Nat → List Nat
  | 0 => ws
  | n + 1 =>
    let i := ws.length
    let word :=
      (ws.getD (i - 16) 0 + smallSigma0 (ws.getD (i - 15) 0) +
        ws.getD (i - 7) 0 + smallSigma1 (ws.getD (i - 2) 0)) % 4294967296
    sha256Extend (ws ++ [word]) n

/-- Working state of the SHA-256 compression loop. -/
structure Hash8 where
  a : Nat
  b : Nat
  c : Nat
  d : Nat
  e : Nat
  f : Nat
  g : Nat
  h : Nat

/-- One SHA-256 compression round, consuming a round constant and a schedule word. -/
def sha256Round (st : Hash8) (kw : Nat × Nat) : Hash8 :=
  let bigSigma1 := (rotr32 6 st.e) ^^^ (rotr32 11 st.e) ^^^ (rotr32 25 st.e)
  let ch := (st.e &&& st.f) ^^^ ((st.e ^^^ 4294967295) &&& st.g)
  let temp1 := (st.h + bigSigma1 + ch + kw.1 + kw.2) % 4294967296
  let bigSigma0 := (rotr32 2 st.a) ^^^ (rotr32 13 st.a) ^^^ (rotr32 22 st.a)
  let maj := (st.a &&& st.b) ^^^ (st.a &&& st.c) ^^^ (st.b &&& st.c)
  let temp2 := add32 bigSigma0 maj
  { a := add32 temp1 temp2, b := st.a, c := st.b, d := st.c,
    e := add32 st.d temp1, f := st.e, g := st.f, h := st.g }

/-- Compress one 16-word block into the running 8-word hash state. -/
def sha256Compress (hs : List Nat) (block : List Nat) : List Nat :=
  let ws := sha256Extend block 48
  let first : Hash8 :=
    { a := hs.getD 0 0, b := hs.getD 1 0, c := hs.getD 2 0, d := hs.getD 3 0,
      e := hs.getD 4 0, f := hs.getD 5 0, g := hs.getD 6 0, h := hs.getD 7 0 }
  let fin := (sha256K.zip ws).foldl sha256Round first
  [add32 (hs.getD 0 0) fin.a, add32 (hs.getD 1 0) fin.b, add32 (hs.getD 2 0) fin.c,
   add32 (hs.getD 3 0) fin.d, add32 (hs.getD 4 0) fin.e, add32 (hs.getD 5 0) fin.f,
   add32 (hs.getD 6 0) fin.g, add32 (hs.getD 7 0) fin.h]

/-- Big-endian byte rendering of `n`, exactly `k` bytes. -/
def beBytes (k : Nat) (n : Nat) : List Nat :=
  match k with
  | 0 => []
  | k + 1 => beBytes k (n / 256) ++ [n % 256]

/-- SHA-256 padding: the 0x80 marker, zeros to 56 mod 64, then the bit length. -/
def sha256Pad (msg : List Nat) : List Nat :=
  let zeros := (119 - msg.length % 64) % 64
  msg ++ [128] ++ List.replicate zeros 0 ++ beBytes 8 (msg.length * 8)

/-- Group bytes into big-endian 32-bit words. -/
def bytesToWords : List Nat → List Nat
  | b0 :: b1 :: b2 :: b3 :: rest =>
    (b0 * 16777216 + b1 * 65536 + b2 * 256 + b3) :: bytesToWords rest
  | _ => []

/-- Take 16-word chunks, `n` of them. -/
def chunksAux : Nat → List Nat → List (List Nat)
  | 0, _ => []
  | n + 1, ws => ws.take 16 :: chunksAux n (ws.drop 16)

/-- Split a word list into 16-word blocks. -/
def chunks16 (ws : List Nat) : List (List Nat) :=
  chunksAux ((ws.length + 15) / 16) ws

/-- SHA-256 digest of a byte list, as 32 bytes. -/
def sha256Bytes (msg : List Nat) : List Nat :=
  let blocks := chunks16 (bytesToWords (sha256Pad msg))
  let hs := blocks.foldl sha256Compress sha256H0
  (hs.map (beBytes 4)).flatten

/-- HMAC-SHA256 (RFC 2104) with a 64-byte block size. -/
def hmacSha256 (key msg : List Nat) : List Nat :=
  let key0 := if 64 < key.length then sha256Bytes key else key
  let keyBlock := key0 ++ List.replicate (64 - key0.length) 0
  let ipadKey := keyBlock.map (fun b => b ^^^ 54)
  let opadKey := keyBlock.map (fun b => b ^^^ 92)
  sha256Bytes (opadKey ++ sha256Bytes (ipadKey ++ msg))

/-- Lowercase hexadecimal digit. -/
def hexDigitChar (n : Nat) : Char :=
  if n < 10 then Char.ofNat (48 + n) else Char.ofNat (87 + n)

/-- Lowercase hex string of a byte list. -/
def bytesToHex (bs : List Nat) : String :=
  String.mk ((bs.map (fun b => [hexDigitChar (b / 16), hexDigitChar (b % 16)])).flatten)

/-- UTF-8 encoding of one character. -/
def utf8Char (c : Char) : List Nat :=
  let n := c.toNat
  if n < 128 then [n]
  else if n < 2048 then [192 + n / 64, 128 + n % 64]
  else if n < 65536 then [224 + n / 4096, 128 + n / 64 % 64, 128 + n % 64]
  else [240 + n / 262144, 128 + n / 4096 % 64, 128 + n / 64 % 64, 128 + n % 64]

/-- UTF-8 bytes of a string, as Node's `hash.update(string)` encodes it. -/
def utf8Bytes (s : String) : List Nat := (s.data.map utf8Char).flatten

/-- `crypto.createHmac('sha256', secret).update(body).digest('hex')`
(src/server.js:345-348): lowercase hex HMAC-SHA256 digest. -/
def hmacSha256Hex (secret msg : String) : String :=
  bytesToHex (hmacSha256 (utf8Bytes secret) (utf8Bytes msg))

/-- The inline signature check of `app.post('/verify-payment')`
(src/server.js:344-351): the request passes exactly when the supplied
`razorpay_signature` equals the expected digest. -/
def signatureOk (secret razorpay_order_id razorpay_payment_id razorpay_signature : String) : Bool :=
  let body := razorpay_order_id ++ "|" ++ razorpay_payment_id
  let expectedSignature := hmacSha256Hex secret body
  expectedSignature == razorpay_signature

/-- Replace the character at index `i` (a single-character mutation of a string). -/
def mutateAt (s : String) (i : Nat) (c : Char) : String :=
  String.mk (s.data.set i c)

/-! ## Data model

One record type per PostgreSQL table created by the table set-up code
(src/server.js:122-204), with the `SERIAL` id and the server-assigned
timestamp made explicit. Timestamps are `Nat` instants. -/

/-- A row of the `students` table (src/server.js:126-138). -/
structure Student where
  id : Nat
  name : String
  email : String
  phone : String
  course : String
  payment_id : String
  payment_status : String
  amount : String
  registration_date : Nat
deriving Repr, DecidableEq

/-- The `student_info` object posted to `/verify-payment` (src/server.js:355):
the handler destructures these five fields without further validation, so the
embedding takes them as present strings (the claims address complete
`student_info`). -/
structure StudentInfo where
  name : String
  email : String
  phone : String
  course : String
  amount : String
deriving Repr, DecidableEq

/-- A row of the `contact_messages` table (src/server.js:160-170). -/
structure ContactMessage where
  id : Nat
  name : String
  email : String
  phone : String
  subject : String
  message : String
  submission_date : Nat
deriving Repr, DecidableEq

/-- A row of the `about_inquiries` table (src/server.js:174-183). -/
structure AboutInquiry where
  id : Nat
  name : String
  email : String
  subject : String
  message : String
  submission_date : Nat
deriving Repr, DecidableEq

/-- A row of the `users` table (src/server.js:187-196). -/
structure UserRow where
  id : Nat
  uid : String
  name : String
  email : String
  role : String
  created_at : Nat
deriving Repr, DecidableEq

/-- A row of the `lms_content` table (src/server.js:141-156); nullable columns
are `Option`s. -/
structure LmsContent where
  id : Nat
  title : Option String
  description : Option String
  content_type : Option String
  file_url : Option String
  storage_path : Option String
  file_size : Option Nat
  file_name : Option String
  created_by : Option String
  created_by_email : Option String
  firebase_id : Option String
  created_at : Nat
deriving Repr, DecidableEq

/-- The multer/Cloudinary upload descriptor consumed by `/api/lms/upload`
(`req.file`): MIME type, Cloudinary URL/path, size and original name. -/
structure UploadedFile where
  mimetype : String
  path : String
  size : Nat
  originalname : String
deriving Repr, DecidableEq

/-- A JSON value, for response bodies (`res.json(...)`). -/
inductive JVal where
  | str : String → JVal
  | num : Nat → JVal
  | bool : Bool → JVal
  | null : JVal
  | arr : List JVal → JVal
  | obj : List (String × JVal) → JVal
deriving Repr

/-- The persistent state: the five relational tables with their serial
counters, and the three mirror workbooks, each modelled by the
`sheet_to_json` row list of its single sheet (rows are (label, cell) pairs). -/
structure DbState where
  students : List Student
  studentSeq : Nat
  contacts : List ContactMessage
  contactSeq : Nat
  abouts : List AboutInquiry
  aboutSeq : Nat
  users : List UserRow
  userSeq : Nat
  lms : List LmsContent
  lmsSeq : Nat
  studentsXlsx : List (List (String × String))
  contactXlsx : List (List (String × String))
  aboutXlsx : List (List (String × String))
deriving Repr, DecidableEq

/-- Per-request environment: the server clock, gateway data, and
fault-injection flags for each independently fallible collaborator (the
Razorpay order call, the defensive re-select, the Excel file write, the
nodemailer send, the lms insert). A `true` flag makes that step fail, which
in the source is the corresponding promise rejection / thrown error. -/
structure Env where
  now : Nat
  uptime : Nat
  orderId : String
  gatewayFails : Bool
  reselectEmpty : Bool
  mirrorFails : Bool
  emailFails : Bool
  insertFails : Bool
  dataFilesExist : Bool
deriving Repr, DecidableEq

/-- JavaScript falsiness of an optional request-body string field:
absent (`undefined`) or the empty string. `!x` in the source's validation
guards. -/
def jsFalsy : Option String → Bool
  | none => true
  | some s => s == ""

/-- JavaScript `x || ''`: the string itself when truthy, else the empty string. -/
def orEmpty : Option String → String
  | none => ""
  | some s => s

/-- Stands for JavaScript `new Date(t).toLocaleString()`: the locale-formatted
rendering of the server timestamp written into mirror rows. The exact locale
text is environment-dependent; the embedding fixes one injective rendering. -/
def localeString (t : Nat) : String := toString t

/-! ## Durable Export Mirror (the three Excel append functions) -/

/-- The labelled mirror row that `updateExcelFile` pushes for one student
(src/server.js:713-723). -/
def studentRowOf (student : Student) : List (String × String) :=
  [("ID", toString student.id),
   ("Name", student.name),
   ("Email", student.email),
   ("Phone", student.phone),
   ("Course", student.course),
   ("Amount", student.amount),
   ("Payment ID", student.payment_id),
   ("Payment Status", student.payment_status),
   ("Registration Date", localeString student.registration_date)]

/-- Embeds `updateExcelFile` (src/server.js:692-737). The workbook's
'Students' sheet is modelled by its `sheet_to_json` row list; reading the
file, pushing the new labelled row and rewriting the whole file amounts to
appending that row to the sheet's row sequence. The I/O failure path (the
promise rejection) is injected by the caller via `Env.mirrorFails`, in which
case the file is left as it was. -/
def updateExcelFile (student : Student) (existingData : List (List (String × String))) :
    List (List (String × String)) :=
  existingData ++ [studentRowOf student]

/-- The labelled mirror row that `updateContactExcel` pushes
(src/server.js:761-769); an empty stored phone renders as 'N/A'
(`contactMessage.phone || 'N/A'`). -/
def contactRowOf (contactMessage : ContactMessage) : List (String × String) :=
  [("ID", toString contactMessage.id),
   ("Name", contactMessage.name),
   ("Email", contactMessage.email),
   ("Phone", if contactMessage.phone == "" then "N/A" else contactMessage.phone),
   ("Subject", contactMessage.subject),
   ("Message", contactMessage.message),
   ("Submission Date", localeString contactMessage.submission_date)]

/-- Embeds `updateContactExcel` (src/server.js:740-783), modelled like
`updateExcelFile`. -/
def updateContactExcel (contactMessage : ContactMessage)
    (existingData : List (List (String × String))) : List (List (String × String)) :=
  existingData ++ [contactRowOf contactMessage]

/-- The labelled mirror row that `updateAboutExcel` pushes (src/server.js:807-814). -/
def aboutRowOf (aboutInquiry : AboutInquiry) : List (String × String) :=
  [("ID", toString aboutInquiry.id),
   ("Name", aboutInquiry.name),
   ("Email", aboutInquiry.email),
   ("Subject", aboutInquiry.subject),
   ("Message", aboutInquiry.message),
   ("Submission Date", localeString aboutInquiry.submission_date)]

/-- Embeds `updateAboutExcel` (src/server.js:786-828), modelled like
`updateExcelFile`. -/
def updateAboutExcel (aboutInquiry : AboutInquiry)
    (existingData : List (List (String × String))) : List (List (String × String)) :=
  existingData ++ [aboutRowOf aboutInquiry]

/-! ## Route handlers

Each handler is one route of src/server.js as a function from the request
body, the environment and the persistent state to the new persistent state,
the HTTP status code and the JSON response body. `BEGIN`/`COMMIT`/`ROLLBACK`
become explicit: writes accumulate on a tentative state and a failure path
returns the original tables (PostgreSQL serial counters do not roll back, so
failure paths after an executed insert keep the advanced counter). -/

/-- The student record inserted by `/verify-payment` (src/server.js:363-366):
status fixed to 'successful', serial id, server-assigned timestamp. -/
def insertedStudent (razorpay_payment_id : String) (student_info : StudentInfo)
    (env : Env) (s : DbState) : Student :=
  { id := s.studentSeq
    name := student_info.name
    email := student_info.email
    phone := student_info.phone
    course := student_info.course
    payment_id := razorpay_payment_id
    payment_status := "successful"
    amount := student_info.amount
    registration_date := env.now }

/-- Embeds `app.post('/verify-payment')` (src/server.js:335-398): verify the
signature (reject with 400 before any write on mismatch); inside one
transaction insert the student, re-select it by the returned id (failing the
transaction if that returns nothing), append the mirror row, send the
confirmation email; any failure rolls the database back and answers 500.
The Excel write itself is not transactional: when only the email send fails,
the already-rewritten mirror file keeps its new row. -/
def verifyPayment (secret razorpay_order_id razorpay_payment_id razorpay_signature : String)
    (student_info : StudentInfo) (env : Env) (s : DbState) : DbState × Nat × JVal :=
  if !signatureOk secret razorpay_order_id razorpay_payment_id razorpay_signature then
    (s, 400, JVal.obj [("status", JVal.str "failure"), ("message", JVal.str "Invalid signature")])
  else
    let newStudent := insertedStudent razorpay_payment_id student_info env s
    let s1 : DbState :=
      { s with students := s.students ++ [newStudent], studentSeq := s.studentSeq + 1 }
    let procErr : DbState × Nat × JVal :=
      ({ s with studentSeq := s.studentSeq + 1 }, 500,
        JVal.obj [("status", JVal.str "error"), ("message", JVal.str "Post-payment processing error")])
    let studentRows :=
      if env.reselectEmpty then []
      else s1.students.filter (fun st => st.id == newStudent.id)
    match studentRows with
    | [] => procErr
    | student :: _ =>
      if env.mirrorFails then procErr
      else
        let mirror := updateExcelFile student s.studentsXlsx
        if env.emailFails then
          ({ procErr.1 with studentsXlsx := mirror }, procErr.2.1, procErr.2.2)
        else
          ({ s1 with studentsXlsx := mirror }, 200,
            JVal.obj [("status", JVal.str "success"),
                      ("message", JVal.str "Payment successful and records updated")])

/-- The contact row inserted by `/submit-contact` (src/server.js:603-605):
a falsy phone is stored as the empty string (`phone || ''`). -/
def insertedContact (name email phone subject message : Option String)
    (env : Env) (s : DbState) : ContactMessage :=
  { id := s.contactSeq
    name := orEmpty name
    email := orEmpty email
    phone := orEmpty phone
    subject := orEmpty subject
    message := orEmpty message
    submission_date := env.now }

/-- Embeds `app.post('/submit-contact')` (src/server.js:590-638): reject with
400 before any write when name, email, subject or message is falsy; otherwise
the same transactional store → mirror → notify pipeline as `/verify-payment`,
without signature verification. -/
def submitContact (name email phone subject message : Option String)
    (env : Env) (s : DbState) : DbState × Nat × JVal :=
  if jsFalsy name || jsFalsy email || jsFalsy subject || jsFalsy message then
    (s, 400, JVal.obj [("error", JVal.str "Name, email, subject, and message are required")])
  else
    let newMessage := insertedContact name email phone subject message env s
    let s1 : DbState :=
      { s with contacts := s.contacts ++ [newMessage], contactSeq := s.contactSeq + 1 }
    let procErr : DbState × Nat × JVal :=
      ({ s with contactSeq := s.contactSeq + 1 }, 500,
        JVal.obj [("error", JVal.str "Error processing your message")])
    let messageRows :=
      if env.reselectEmpty then []
      else s1.contacts.filter (fun m => m.id == newMessage.id)
    match messageRows with
    | [] => procErr
    | contactMessage :: _ =>
      if env.mirrorFails then procErr
      else
        let mirror := updateContactExcel contactMessage s.contactXlsx
        if env.emailFails then
          ({ procErr.1 with contactXlsx := mirror }, procErr.2.1, procErr.2.2)
        else
          ({ s1 with contactXlsx := mirror }, 200,
            JVal.obj [("success", JVal.bool true),
                      ("message", JVal.str "Your message has been sent successfully!")])

/-- The about-inquiry row inserted by `/submit-about-inquiry` (src/server.js:654-656). -/
def insertedAbout (name email subject message : Option String)
    (env : Env) (s : DbState) : AboutInquiry :=
  { id := s.aboutSeq
    name := orEmpty name
    email := orEmpty email
    subject := orEmpty subject
    message := orEmpty message
    submission_date := env.now }

/-- Embeds `app.post('/submit-about-inquiry')` (src/server.js:641-689), the
same pipeline shape as `/submit-contact` without a phone field. -/
def submitAbout (name email subject message : Option String)
    (env : Env) (s : DbState) : DbState × Nat × JVal :=
  if jsFalsy name || jsFalsy email || jsFalsy subject || jsFalsy message then
    (s, 400, JVal.obj [("error", JVal.str "Name, email, subject, and message are required")])
  else
    let newInquiry := insertedAbout name email subject message env s
    let s1 : DbState :=
      { s with abouts := s.abouts ++ [newInquiry], aboutSeq := s.aboutSeq + 1 }
    let procErr : DbState × Nat × JVal :=
      ({ s with aboutSeq := s.aboutSeq + 1 }, 500,
        JVal.obj [("error", JVal.str "Error processing your message")])
    let inquiryRows :=
      if env.reselectEmpty then []
      else s1.abouts.filter (fun q => q.id == newInquiry.id)
    match inquiryRows with
    | [] => procErr
    | aboutInquiry :: _ =>
      if env.mirrorFails then procErr
      else
        let mirror := updateAboutExcel aboutInquiry s.aboutXlsx
        if env.emailFails then
          ({ procErr.1 with aboutXlsx := mirror }, procErr.2.1, procErr.2.2)
        else
          ({ s1 with aboutXlsx := mirror }, 200,
            JVal.obj [("success", JVal.bool true),
                      ("message", JVal.str "Your message has been sent successfully!")])

/-- Embeds `app.post('/api/users')` (src/server.js:401-447): validate the four
fields, answer 409 without inserting when a user with the uid exists,
otherwise insert and answer 201. -/
def createUser (uid name email role : Option String) (env : Env) (s : DbState) :
    DbState × Nat × JVal :=
  if jsFalsy uid || jsFalsy name || jsFalsy email || jsFalsy role then
    (s, 400, JVal.obj [("error", JVal.str "All fields are required (uid, name, email, role)")])
  else
    let existingUsers := s.users.filter (fun u => u.uid == orEmpty uid)
    if 0 < existingUsers.length then
      (s, 409, JVal.obj [("error", JVal.str "User already exists")])
    else
      let u : UserRow :=
        { id := s.userSeq, uid := orEmpty uid, name := orEmpty name,
          email := orEmpty email, role := orEmpty role, created_at := env.now }
      ({ s with users := s.users ++ [u], userSeq := s.userSeq + 1 }, 201,
        JVal.obj [("success", JVal.bool true),
                  ("message", JVal.str "User created successfully"),
                  ("userId", JVal.num s.userSeq)])

/-- The content-type tag derived from the upload MIME type
(src/server.js:461-483). -/
def contentTypeOf (m : String) : String :=
  if m == "image/jpeg" || m == "image/jpg" || m == "image/png" then "image"
  else if m == "application/pdf" then "pdf"
  else if m == "video/mp4" then "video"
  else if m == "application/vnd.openxmlformats-officedocument.presentationml.presentation" then "ppt"
  else if m == "application/vnd.openxmlformats-officedocument.wordprocessingml.document"
          || m == "application/msword" then "word"
  else "other"

/-- Embeds `app.post('/api/lms/upload')` (src/server.js:450-532): 400 without
a file; otherwise insert the metadata row (the binary lives at the external
media host; the Cloudinary clean-up on a failed insert is external). -/
def lmsUpload (file : Option UploadedFile)
    (title description createdBy createdByEmail : Option String)
    (env : Env) (s : DbState) : DbState × Nat × JVal :=
  match file with
  | none => (s, 400, JVal.obj [("error", JVal.str "No file uploaded")])
  | some f =>
    if env.insertFails then
      (s, 500, JVal.obj [("error", JVal.str "Failed to store content metadata")])
    else
      let row : LmsContent :=
        { id := s.lmsSeq, title := title, description := description,
          content_type := some (contentTypeOf f.mimetype), file_url := some f.path,
          storage_path := some f.path, file_size := some f.size,
          file_name := some f.originalname, created_by := createdBy,
          created_by_email := createdByEmail, firebase_id := none, created_at := env.now }
      ({ s with lms := s.lms ++ [row], lmsSeq := s.lmsSeq + 1 }, 201,
        JVal.obj [("success", JVal.bool true),
                  ("message", JVal.str "Content uploaded successfully"),
                  ("contentId", JVal.num s.lmsSeq), ("fileURL", JVal.str f.path)])

/-- Embeds `app.post('/api/lms/content')` (src/server.js:535-576): validate
the five required fields, then insert the metadata row and answer 201. -/
def lmsCreate (title description contentType fileURL storagePath : Option String)
    (fileSize : Option Nat) (fileName createdBy createdByEmail firebaseId : Option String)
    (env : Env) (s : DbState) : DbState × Nat × JVal :=
  if jsFalsy title || jsFalsy contentType || jsFalsy fileURL
      || jsFalsy storagePath || jsFalsy createdBy then
    (s, 400, JVal.obj [("error", JVal.str "Missing required fields")])
  else if env.insertFails then
    (s, 500, JVal.obj [("error", JVal.str "Failed to store content metadata")])
  else
    let row : LmsContent :=
      { id := s.lmsSeq, title := title, description := description,
        content_type := contentType, file_url := fileURL, storage_path := storagePath,
        file_size := fileSize, file_name := fileName, created_by := createdBy,
        created_by_email := createdByEmail, firebase_id := firebaseId, created_at := env.now }
    ({ s with lms := s.lms ++ [row], lmsSeq := s.lmsSeq + 1 }, 201,
      JVal.obj [("success", JVal.bool true),
                ("message", JVal.str "Content uploaded successfully"),
                ("contentId", JVal.num s.lmsSeq)])

/-- Embeds `app.delete('/api/lms/content/:id')` (src/server.js:978-1033):
404 when no row has the id; otherwise best-effort external asset delete,
then delete the row and answer 200. -/
def lmsDelete (contentId : Nat) (s : DbState) : DbState × Nat × JVal :=
  let contentRows := s.lms.filter (fun c => c.id == contentId)
  match contentRows with
  | [] => (s, 404, JVal.obj [("error", JVal.str "Content not found")])
  | _ :: _ =>
    ({ s with lms := s.lms.filter (fun c => !(c.id == contentId)) }, 200,
      JVal.obj [("success", JVal.bool true), ("message", JVal.str "Content deleted successfully")])

/-- Embeds `app.post('/create-order')` (src/server.js:263-332): validate the
five fields, then call the external gateway; no database write on any path.
The full order descriptor (paisa conversion, UPI display config, prefill) is
gateway-facing data summarised here by the created order id. -/
def createOrder (name email phone course amount : Option String) (env : Env) (s : DbState) :
    DbState × Nat × JVal :=
  if jsFalsy name || jsFalsy email || jsFalsy phone || jsFalsy course || jsFalsy amount then
    (s, 400, JVal.obj [("error", JVal.str "All fields are required")])
  else if env.gatewayFails then
    (s, 500, JVal.obj [("error", JVal.str "Error creating order")])
  else
    (s, 200, JVal.obj [("order_id", JVal.str env.orderId)])

/-! ## Listing endpoints (`SELECT * ... ORDER BY <timestamp> DESC`) -/

/-- `ORDER BY key DESC`: sort the rows by a numeric key, largest first. -/
def orderByDesc {α : Type} (key : α → Nat) (rows : List α) : List α :=
  rows.mergeSort (fun a b => decide (key b ≤ key a))

/-- `app.get('/api/students')` (src/server.js:945-953). -/
def getStudents (s : DbState) : List Student :=
  orderByDesc (fun st => st.registration_date) s.students

/-- `app.get('/api/contact-messages')` (src/server.js:956-964). -/
def getContactMessages (s : DbState) : List ContactMessage :=
  orderByDesc (fun m => m.submission_date) s.contacts

/-- `app.get('/api/about-inquiries')` (src/server.js:967-975). -/
def getAboutInquiries (s : DbState) : List AboutInquiry :=
  orderByDesc (fun q => q.submission_date) s.abouts

/-- `app.get('/api/users')` (src/server.js:1036-1055): optional `WHERE role = $1`,
then `ORDER BY created_at DESC`. -/
def getUsers (role : Option String) (s : DbState) : List UserRow :=
  let base :=
    match role with
    | none => s.users
    | some r => s.users.filter (fun u => u.role == r)
  orderByDesc (fun u => u.created_at) base

/-- `app.get('/api/lms/content')` (src/server.js:579-587). -/
def getLmsContent (s : DbState) : List LmsContent :=
  orderByDesc (fun c => c.created_at) s.lms

/-! ## The full HTTP surface as one step relation -/

/-- JSON rendering of a student row, as `res.json(result.rows)` emits it. -/
def studentJson (st : Student) : JVal :=
  JVal.obj [("id", JVal.num st.id), ("name", JVal.str st.name), ("email", JVal.str st.email),
            ("phone", JVal.str st.phone), ("course", JVal.str st.course),
            ("payment_id", JVal.str st.payment_id),
            ("payment_status", JVal.str st.payment_status), ("amount", JVal.str st.amount),
            ("registration_date", JVal.num st.registration_date)]

/-- JSON rendering of a contact-message row. -/
def contactJson (m : ContactMessage) : JVal :=
  JVal.obj [("id", JVal.num m.id), ("name", JVal.str m.name), ("email", JVal.str m.email),
            ("phone", JVal.str m.phone), ("subject", JVal.str m.subject),
            ("message", JVal.str m.message), ("submission_date", JVal.num m.submission_date)]

/-- JSON rendering of an about-inquiry row. -/
def aboutJson (q : AboutInquiry) : JVal :=
  JVal.obj [("id", JVal.num q.id), ("name", JVal.str q.name), ("email", JVal.str q.email),
            ("subject", JVal.str q.subject), ("message", JVal.str q.message),
            ("submission_date", JVal.num q.submission_date)]

/-- JSON rendering of a user row. -/
def userJson (u : UserRow) : JVal :=
  JVal.obj [("id", JVal.num u.id), ("uid", JVal.str u.uid), ("name", JVal.str u.name),
            ("email", JVal.str u.email), ("role", JVal.str u.role),
            ("created_at", JVal.num u.created_at)]

/-- JSON rendering of an optional string column (`null` when absent). -/
def optJson : Option String → JVal
  | none => JVal.null
  | some s => JVal.str s

/-- JSON rendering of an lms-content row. -/
def lmsJson (c : LmsContent) : JVal :=
  JVal.obj [("id", JVal.num c.id), ("title", optJson c.title),
            ("description", optJson c.description), ("content_type", optJson c.content_type),
            ("file_url", optJson c.file_url), ("storage_path", optJson c.storage_path),
            ("file_name", optJson c.file_name), ("created_by", optJson c.created_by),
            ("created_by_email", optJson c.created_by_email),
            ("firebase_id", optJson c.firebase_id), ("created_at", JVal.num c.created_at)]

/-- One inbound HTTP request, one constructor per route of src/server.js. -/
inductive Request where
  | createOrder (name email phone course amount : Option String)
  | verifyPayment (razorpay_order_id razorpay_payment_id razorpay_signature : String)
      (student_info : StudentInfo)
  | createUser (uid name email role : Option String)
  | lmsUpload (file : Option UploadedFile)
      (title description createdBy createdByEmail : Option String)
  | lmsCreate (title description contentType fileURL storagePath : Option String)
      (fileSize : Option Nat) (fileName createdBy createdByEmail firebaseId : Option String)
  | lmsList
  | submitContact (name email phone subject message : Option String)
  | submitAbout (name email subject message : Option String)
  | listStudents
  | listContacts
  | listAbouts
  | lmsDelete (id : Nat)
  | listUsers (role : Option String)
  | health
  | downloadStudents
  | downloadContacts
  | downloadAbouts
deriving Repr

/-- The whole server: dispatch one request to its route handler
(src/server.js:263-1089). Listing routes and the health/download routes never
write; the download routes stream the mirror file when it exists. -/
def step (secret : String) (req : Request) (env : Env) (s : DbState) : DbState × Nat × JVal :=
  match req with
  | .createOrder name email phone course amount => createOrder name email phone course amount env s
  | .verifyPayment oid pid sig info => verifyPayment secret oid pid sig info env s
  | .createUser uid name email role => createUser uid name email role env s
  | .lmsUpload file title description createdBy createdByEmail =>
    lmsUpload file title description createdBy createdByEmail env s
  | .lmsCreate title description contentType fileURL storagePath fileSize fileName createdBy
      createdByEmail firebaseId =>
    lmsCreate title description contentType fileURL storagePath fileSize fileName createdBy
      createdByEmail firebaseId env s
  | .lmsList => (s, 200, JVal.arr ((getLmsContent s).map lmsJson))
  | .submitContact name email phone subject message =>
    submitContact name email phone subject message env s
  | .submitAbout name email subject message => submitAbout name email subject message env s
  | .listStudents => (s, 200, JVal.arr ((getStudents s).map studentJson))
  | .listContacts => (s, 200, JVal.arr ((getContactMessages s).map contactJson))
  | .listAbouts => (s, 200, JVal.arr ((getAboutInquiries s).map aboutJson))
  | .lmsDelete contentId => lmsDelete contentId s
  | .listUsers role => (s, 200, JVal.arr ((getUsers role s).map userJson))
  | .health => (s, 200, JVal.obj [("status", JVal.str "ok"), ("timestamp", JVal.num env.now),
      ("uptime", JVal.num env.uptime)])
  | .downloadStudents =>
    if env.dataFilesExist then (s, 200, JVal.null)
    else (s, 404, JVal.obj [("error", JVal.str "Students data file not found")])
  | .downloadContacts =>
    if env.dataFilesExist then (s, 200, JVal.null)
    else (s, 404, JVal.obj [("error", JVal.str "Contact messages file not found")])
  | .downloadAbouts =>
    if env.dataFilesExist then (s, 200, JVal.null)
    else (s, 404, JVal.obj [("error", JVal.str "About inquiries file not found")])

/-! ## Concrete fixtures for witnesses -/

/-- The empty persistent state, as after table creation on a fresh database
(PostgreSQL serials start at 1). -/
def db0 : DbState :=
  { students := [], studentSeq := 1, contacts := [], contactSeq := 1, abouts := [],
    aboutSeq := 1, users := [], userSeq := 1, lms := [], lmsSeq := 1,
    studentsXlsx := [], contactXlsx := [], aboutXlsx := [] }

/-- An environment in which every collaborator succeeds. -/
def envOk : Env :=
  { now := 1700000000, uptime := 5, orderId := "order_1", gatewayFails := false,
    reselectEmpty := false, mirrorFails := false, emailFails := false, insertFails := false,
    dataFilesExist := true }

/-- Success environment except the Excel rewrite rejects. -/
def envMirrorFail : Env := { envOk with mirrorFails := true }

/-- Success environment except the confirmation email rejects. -/
def envEmailFail : Env := { envOk with emailFails := true }

/-- Success environment except the defensive re-select returns no row. -/
def envReselectEmpty : Env := { envOk with reselectEmpty := true }

/-- The spec's example registration payload. -/
def infoA : StudentInfo :=
  { name := "A", email := "a@x.com", phone := "1", course := "C1", amount := "500" }

set_option maxRecDepth 1000000 in
/-- Concrete digest (checked against the RFC 2104 test vectors): the expected
signature for secret "k", order id "o", payment id "p". -/
theorem hmac_k_op_val :
    hmacSha256Hex "k" ("o" ++ "|" ++ "p")
      = "b4a1eaa0d26e7d8900c5348a815f8db06e16c9ca68d61752c6bfc2d9b08e9660" := by decide

set_option maxRecDepth 1000000 in
/-- Concrete digest after mutating the order id "o" to "a". -/
theorem hmac_k_ap_val :
    hmacSha256Hex "k" ("a" ++ "|" ++ "p")
      = "5e6cfef1491000a67f55f75e59fbaf7c734a315c9d695517aa0e240013ab9e87" := by decide

/-! ## Helper lemmas -/

/-- The signature gate passes exactly on the expected digest. -/
theorem signatureOk_iff {secret oid pid sig : String} :
    signatureOk secret oid pid sig = true ↔ hmacSha256Hex secret (oid ++ "|" ++ pid) = sig := by
  constructor
  · intro h
    exact eq_of_beq h
  · intro h
    show (hmacSha256Hex secret (oid ++ "|" ++ pid) == sig) = true
    rw [← h]
    exact beq_self_eq_true _

/-- A falsy optional string renders as the empty string under `x || ''`. -/
theorem orEmpty_of_falsy {o : Option String} (h : jsFalsy o = true) : orEmpty o = "" := by
  cases o with
  | none => rfl
  | some s => simpa [jsFalsy, orEmpty] using h

/-- Replacing a character by a different one changes the string. -/
theorem mutateAt_ne (s : String) (i : Nat) (c : Char) (hi : i < s.length)
    (hc : s.data[i]? ≠ some c) : mutateAt s i c ≠ s := by
  intro h
  have hd : s.data.set i c = s.data := congrArg String.data h
  have h2 : (s.data.set i c)[i]? = some c := List.getElem?_set_self hi
  rw [hd] at h2
  exact hc h2


/-! ## Claims -/

/-- **C7**: appending to a mirror file with `n` prior rows leaves those `n`
rows unchanged and adds exactly one new row at the end, whose cells are the
committed record's fields under the fixed human-readable labels, the
timestamp rendered in locale format — so mirror rows appear one per committed
record, in commit order. -/
theorem updateExcelFile_appends_one_row (student : Student)
    (rows : List (List (String × String))) :
    (updateExcelFile student rows).length = rows.length + 1
    ∧ (updateExcelFile student rows).take rows.length = rows
    ∧ (updateExcelFile student rows).getLast? = some (studentRowOf student)
    ∧ studentRowOf student =
        [("ID", toString student.id), ("Name", student.name), ("Email", student.email),
         ("Phone", student.phone), ("Course", student.course), ("Amount", student.amount),
         ("Payment ID", student.payment_id), ("Payment Status", student.payment_status),
         ("Registration Date", localeString student.registration_date)] := by
  refine ⟨?_, ?_, ?_, rfl⟩
  · simp [updateExcelFile]
  · simp only [updateExcelFile]
    exact List.take_left rows [studentRowOf student]
  · simp [updateExcelFile]

/-- **C3**: a `/verify-payment` request whose `razorpay_signature` differs
from the expected digest is rejected with HTTP 400 and body
`{status:"failure", message:"Invalid signature"}`, and the state — database
tables and mirror files alike — is completely unchanged. -/
theorem verifyPayment_invalid_signature (secret oid pid sig : String) (info : StudentInfo)
    (env : Env) (s : DbState)
    (hsig : hmacSha256Hex secret (oid ++ "|" ++ pid) ≠ sig) :
    verifyPayment secret oid pid sig info env s
      = (s, 400, JVal.obj [("status", JVal.str "failure"),
                           ("message", JVal.str "Invalid signature")]) := by
  have h : signatureOk secret oid pid sig = false := by
    cases hok : signatureOk secret oid pid sig with
    | false => rfl
    | true => exact absurd (signatureOk_iff.mp hok) hsig
  simp [verifyPayment, h]

/-- Witness for C3 at a concrete forged signature. -/
theorem verifyPayment_invalid_signature_witness :
    verifyPayment "k" "o" "p" "forged" infoA envOk db0
      = (db0, 400, JVal.obj [("status", JVal.str "failure"),
                             ("message", JVal.str "Invalid signature")]) :=
  verifyPayment_invalid_signature "k" "o" "p" "forged" infoA envOk db0
    (by rw [hmac_k_op_val]; decide)

/-- **C1**: when the signature verifies but the mirror write or the
notification send fails, the database transaction is rolled back — the
students table is exactly what it was — and the client receives the 500
processing-error response instead of success. -/
theorem verifyPayment_rollback_on_side_effect_failure (secret oid pid sig : String)
    (info : StudentInfo) (env : Env) (s : DbState)
    (hsig : hmacSha256Hex secret (oid ++ "|" ++ pid) = sig)
    (hfail : env.mirrorFails = true ∨ env.emailFails = true) :
    (verifyPayment secret oid pid sig info env s).1.students = s.students
    ∧ (verifyPayment secret oid pid sig info env s).2.1 = 500
    ∧ (verifyPayment secret oid pid sig info env s).2.2
        = JVal.obj [("status", JVal.str "error"),
                    ("message", JVal.str "Post-payment processing error")] := by
  have h : signatureOk secret oid pid sig = true := signatureOk_iff.mpr hsig
  cases hre : env.reselectEmpty with
  | true => refine ⟨?_, ?_, ?_⟩ <;> simp [verifyPayment, h, hre]
  | false =>
    cases hrows : (s.students ++ [insertedStudent pid info env s]).filter
        (fun st => st.id == (insertedStudent pid info env s).id) with
    | nil => refine ⟨?_, ?_, ?_⟩ <;> simp [verifyPayment, h, hre, hrows]
    | cons student rest =>
      cases hm : env.mirrorFails with
      | true => refine ⟨?_, ?_, ?_⟩ <;> simp [verifyPayment, h, hre, hrows, hm]
      | false =>
        cases hem : env.emailFails with
        | true => refine ⟨?_, ?_, ?_⟩ <;> simp [verifyPayment, h, hre, hrows, hm, hem]
        | false =>
          rcases hfail with hf | hf
          · rw [hm] at hf; exact absurd hf (by decide)
          · rw [hem] at hf; exact absurd hf (by decide)

/-- Witness for C1: mirror failure and email failure, each at a concrete
verified payload. -/
theorem verifyPayment_rollback_on_side_effect_failure_witness :
    ((verifyPayment "k" "o" "p" (hmacSha256Hex "k" ("o" ++ "|" ++ "p")) infoA envMirrorFail
        db0).1.students = db0.students
      ∧ (verifyPayment "k" "o" "p" (hmacSha256Hex "k" ("o" ++ "|" ++ "p")) infoA envMirrorFail
          db0).2.1 = 500)
    ∧ ((verifyPayment "k" "o" "p" (hmacSha256Hex "k" ("o" ++ "|" ++ "p")) infoA envEmailFail
        db0).1.students = db0.students
      ∧ (verifyPayment "k" "o" "p" (hmacSha256Hex "k" ("o" ++ "|" ++ "p")) infoA envEmailFail
          db0).2.1 = 500) :=
  ⟨⟨(verifyPayment_rollback_on_side_effect_failure "k" "o" "p" _ infoA envMirrorFail db0 rfl
      (Or.inl rfl)).1,
    (verifyPayment_rollback_on_side_effect_failure "k" "o" "p" _ infoA envMirrorFail db0 rfl
      (Or.inl rfl)).2.1⟩,
   ⟨(verifyPayment_rollback_on_side_effect_failure "k" "o" "p" _ infoA envEmailFail db0 rfl
      (Or.inr rfl)).1,
    (verifyPayment_rollback_on_side_effect_failure "k" "o" "p" _ infoA envEmailFail db0 rfl
      (Or.inr rfl)).2.1⟩⟩

/-- **C5**: inside the payment-confirmation transaction, when the re-select
of the just-inserted row returns no row, the whole transaction fails — the
students table rolls back to what it was and the request answers 500. -/
theorem verifyPayment_reselect_empty_rolls_back (secret oid pid sig : String)
    (info : StudentInfo) (env : Env) (s : DbState)
    (hsig : hmacSha256Hex secret (oid ++ "|" ++ pid) = sig)
    (hre : env.reselectEmpty = true) :
    (verifyPayment secret oid pid sig info env s).1.students = s.students
    ∧ (verifyPayment secret oid pid sig info env s).2.1 = 500
    ∧ (verifyPayment secret oid pid sig info env s).2.2
        = JVal.obj [("status", JVal.str "error"),
                    ("message", JVal.str "Post-payment processing error")] := by
  have h : signatureOk secret oid pid sig = true := signatureOk_iff.mpr hsig
  refine ⟨?_, ?_, ?_⟩ <;> simp [verifyPayment, h, hre]

/-- Witness for C5 at a concrete verified payload. -/
theorem verifyPayment_reselect_empty_rolls_back_witness :
    (verifyPayment "k" "o" "p" (hmacSha256Hex "k" ("o" ++ "|" ++ "p")) infoA envReselectEmpty
        db0).1.students = db0.students
    ∧ (verifyPayment "k" "o" "p" (hmacSha256Hex "k" ("o" ++ "|" ++ "p")) infoA envReselectEmpty
        db0).2.1 = 500 :=
  ⟨(verifyPayment_reselect_empty_rolls_back "k" "o" "p" _ infoA envReselectEmpty db0 rfl rfl).1,
   (verifyPayment_reselect_empty_rolls_back "k" "o" "p" _ infoA envReselectEmpty db0 rfl rfl).2.1⟩

/-- **C2**: a `/verify-payment` request with a valid signature and complete
`student_info`, with every collaborator succeeding, answers
`{status:"success", message:"Payment successful and records updated"}`; the
students table gains exactly the one new row with `payment_status`
'successful' (so from an empty table exactly one such row exists), and the
students mirror file gains exactly one new row matching it field-for-field. -/
theorem verifyPayment_success (secret oid pid sig : String) (info : StudentInfo) (env : Env)
    (s : DbState)
    (hsig : hmacSha256Hex secret (oid ++ "|" ++ pid) = sig)
    (hre : env.reselectEmpty = false) (hm : env.mirrorFails = false)
    (he : env.emailFails = false)
    (hfresh : ∀ st ∈ s.students, st.id ≠ s.studentSeq) :
    (verifyPayment secret oid pid sig info env s).2.1 = 200
    ∧ (verifyPayment secret oid pid sig info env s).2.2
        = JVal.obj [("status", JVal.str "success"),
                    ("message", JVal.str "Payment successful and records updated")]
    ∧ (verifyPayment secret oid pid sig info env s).1.students
        = s.students ++ [insertedStudent pid info env s]
    ∧ (insertedStudent pid info env s).payment_status = "successful"
    ∧ (insertedStudent pid info env s).payment_id = pid
    ∧ (verifyPayment secret oid pid sig info env s).1.studentsXlsx
        = s.studentsXlsx ++ [studentRowOf (insertedStudent pid info env s)]
    ∧ ((verifyPayment secret oid pid sig info env s).1.students.filter
          (fun st => st.payment_status == "successful")).length
        = (s.students.filter (fun st => st.payment_status == "successful")).length + 1
    ∧ (s.students = [] →
        (verifyPayment secret oid pid sig info env s).1.students
          = [insertedStudent pid info env s]) := by
  have h : signatureOk secret oid pid sig = true := signatureOk_iff.mpr hsig
  have hfilter : (s.students ++ [insertedStudent pid info env s]).filter
      (fun st => st.id == (insertedStudent pid info env s).id)
      = [insertedStudent pid info env s] := by
    rw [List.filter_append]
    have h1 : s.students.filter
        (fun st => st.id == (insertedStudent pid info env s).id) = [] := by
      rw [List.filter_eq_nil_iff]
      intro st hst
      simpa [insertedStudent] using hfresh st hst
    rw [h1]
    simp
  have hstep : verifyPayment secret oid pid sig info env s
      = ({ s with students := s.students ++ [insertedStudent pid info env s]
                  studentSeq := s.studentSeq + 1
                  studentsXlsx := s.studentsXlsx
                    ++ [studentRowOf (insertedStudent pid info env s)] },
         200, JVal.obj [("status", JVal.str "success"),
                        ("message", JVal.str "Payment successful and records updated")]) := by
    simp [verifyPayment, h, hre, hm, he, hfilter, updateExcelFile]
  refine ⟨?_, ?_, ?_, rfl, rfl, ?_, ?_, ?_⟩
  · rw [hstep]
  · rw [hstep]
  · rw [hstep]
  · rw [hstep]
  · rw [hstep]
    simp [List.filter_append, insertedStudent]
  · intro h0
    rw [hstep]
    simp [h0]

/-- Witness for C2 at the spec's example payload on the fresh database. -/
theorem verifyPayment_success_witness :
    (verifyPayment "k" "o" "p" (hmacSha256Hex "k" ("o" ++ "|" ++ "p")) infoA envOk
        db0).2.1 = 200
    ∧ (verifyPayment "k" "o" "p" (hmacSha256Hex "k" ("o" ++ "|" ++ "p")) infoA envOk
        db0).1.students = db0.students ++ [insertedStudent "p" infoA envOk db0] :=
  ⟨(verifyPayment_success "k" "o" "p" _ infoA envOk db0 rfl rfl rfl rfl
      (by intro st hst; simp [db0] at hst)).1,
   (verifyPayment_success "k" "o" "p" _ infoA envOk db0 rfl rfl rfl rfl
      (by intro st hst; simp [db0] at hst)).2.2.1⟩

/-- **C8**: a `/submit-contact` request whose subject is missing (or empty,
which the falsy check treats alike) is rejected with HTTP 400 and the state —
`contact_messages` table and contact mirror file included — is completely
unchanged: no write happens anywhere. -/
theorem submitContact_missing_subject (name email phone message : Option String)
    (env : Env) (s : DbState) (subject : Option String)
    (hsubj : jsFalsy subject = true) :
    submitContact name email phone subject message env s
      = (s, 400, JVal.obj [("error",
          JVal.str "Name, email, subject, and message are required")]) := by
  simp [submitContact, hsubj]

/-- Witness for C8: a concrete request with no subject. -/
theorem submitContact_missing_subject_witness :
    submitContact (some "N") (some "n@x.com") (some "1") none (some "hello") envOk db0
      = (db0, 400, JVal.obj [("error",
          JVal.str "Name, email, subject, and message are required")]) :=
  submitContact_missing_subject (some "N") (some "n@x.com") (some "1") (some "hello") envOk db0
    none rfl

/-- **C10**: a `/submit-contact` request whose optional phone is absent or
empty (and whose required fields are present), on the success path, stores
the contact row with the empty string as its phone value, while the mirror
row renders the Phone cell as the literal text 'N/A'. -/
theorem submitContact_empty_phone (name email subject message phone : Option String)
    (env : Env) (s : DbState)
    (hn : jsFalsy name = false) (he : jsFalsy email = false)
    (hs : jsFalsy subject = false) (hm : jsFalsy message = false)
    (hp : jsFalsy phone = true)
    (hre : env.reselectEmpty = false) (hmf : env.mirrorFails = false)
    (hef : env.emailFails = false)
    (hfresh : ∀ m ∈ s.contacts, m.id ≠ s.contactSeq) :
    (submitContact name email phone subject message env s).1.contacts
      = s.contacts ++ [insertedContact name email phone subject message env s]
    ∧ (insertedContact name email phone subject message env s).phone = ""
    ∧ (submitContact name email phone subject message env s).1.contactXlsx
      = s.contactXlsx ++ [contactRowOf (insertedContact name email phone subject message env s)]
    ∧ (contactRowOf (insertedContact name email phone subject message env s)).lookup "Phone"
      = some "N/A" := by
  have hfilter : (s.contacts ++ [insertedContact name email phone subject message env s]).filter
      (fun m => m.id == (insertedContact name email phone subject message env s).id)
      = [insertedContact name email phone subject message env s] := by
    rw [List.filter_append]
    have h1 : s.contacts.filter
        (fun m => m.id == (insertedContact name email phone subject message env s).id) = [] := by
      rw [List.filter_eq_nil_iff]
      intro m hmem
      simpa [insertedContact] using hfresh m hmem
    rw [h1]
    simp
  have hph : (insertedContact name email phone subject message env s).phone = "" := by
    simpa [insertedContact] using orEmpty_of_falsy hp
  have hstep : (submitContact name email phone subject message env s).1
      = { s with contacts := s.contacts
                    ++ [insertedContact name email phone subject message env s]
                 contactSeq := s.contactSeq + 1
                 contactXlsx := s.contactXlsx
                   ++ [contactRowOf (insertedContact name email phone subject message env s)] } := by
    simp [submitContact, hn, he, hs, hm, hre, hmf, hef, hfilter, updateContactExcel]
  refine ⟨?_, hph, ?_, ?_⟩
  · rw [hstep]
  · rw [hstep]
  · simp [contactRowOf, hph, List.lookup]

/-- Witness for C10: a concrete request with no phone, on the fresh database. -/
theorem submitContact_empty_phone_witness :
    (submitContact (some "N") (some "n@x.com") none (some "Hi") (some "msg") envOk db0).1.contacts
      = db0.contacts ++ [insertedContact (some "N") (some "n@x.com") none (some "Hi") (some "msg")
          envOk db0]
    ∧ (contactRowOf (insertedContact (some "N") (some "n@x.com") none (some "Hi") (some "msg")
        envOk db0)).lookup "Phone" = some "N/A" :=
  ⟨(submitContact_empty_phone (some "N") (some "n@x.com") (some "Hi") (some "msg") none envOk db0
      rfl rfl rfl rfl rfl rfl rfl rfl (by intro m hmem; simp [db0] at hmem)).1,
   (submitContact_empty_phone (some "N") (some "n@x.com") (some "Hi") (some "msg") none envOk db0
      rfl rfl rfl rfl rfl rfl rfl rfl (by intro m hmem; simp [db0] at hmem)).2.2.2⟩

/-- `ORDER BY key DESC` produces a list that is pairwise descending in the key. -/
theorem orderByDesc_pairwise {α : Type} (key : α → Nat) (rows : List α) :
    (orderByDesc key rows).Pairwise (fun a b => key b ≤ key a) := by
  have h := @List.sorted_mergeSort _ (fun a b : α => decide (key b ≤ key a))
    (fun a b c h1 h2 => by
      simp only [decide_eq_true_eq] at h1 h2 ⊢
      omega)
    (fun a b => by
      simp only [Bool.or_eq_true, decide_eq_true_eq]
      omega)
    rows
  exact h.imp (fun hab => by simpa using hab)

/-- `ORDER BY key DESC` returns exactly the selected rows, rearranged. -/
theorem orderByDesc_perm {α : Type} (key : α → Nat) (rows : List α) :
    List.Perm (orderByDesc key rows) rows :=
  List.mergeSort_perm rows _

/-- **C9**: every listing endpoint returns, for any table contents, exactly
the selected rows sorted by that entity's timestamp column in descending
order (most recent first): `/api/students` by `registration_date`,
`/api/contact-messages` and `/api/about-inquiries` by `submission_date`,
`/api/users` (with its optional role filter) by `created_at`, and
`/api/lms/content` by `created_at`. -/
theorem listing_endpoints_newest_first (s : DbState) (role : Option String) :
    ((getStudents s).Pairwise (fun a b => b.registration_date ≤ a.registration_date)
      ∧ List.Perm (getStudents s) s.students)
    ∧ ((getContactMessages s).Pairwise (fun a b => b.submission_date ≤ a.submission_date)
      ∧ List.Perm (getContactMessages s) s.contacts)
    ∧ ((getAboutInquiries s).Pairwise (fun a b => b.submission_date ≤ a.submission_date)
      ∧ List.Perm (getAboutInquiries s) s.abouts)
    ∧ ((getUsers role s).Pairwise (fun a b => b.created_at ≤ a.created_at)
      ∧ List.Perm (getUsers role s)
          (match role with
           | none => s.users
           | some r => s.users.filter (fun u => u.role == r)))
    ∧ ((getLmsContent s).Pairwise (fun a b => b.created_at ≤ a.created_at)
      ∧ List.Perm (getLmsContent s) s.lms) := by
  refine ⟨⟨?_, ?_⟩, ⟨?_, ?_⟩, ⟨?_, ?_⟩, ⟨?_, ?_⟩, ⟨?_, ?_⟩⟩
  · exact orderByDesc_pairwise _ _
  · exact orderByDesc_perm _ _
  · exact orderByDesc_pairwise _ _
  · exact orderByDesc_perm _ _
  · exact orderByDesc_pairwise _ _
  · exact orderByDesc_perm _ _
  · cases role with
    | none => exact orderByDesc_pairwise _ _
    | some r => exact orderByDesc_pairwise _ _
  · cases role with
    | none => exact orderByDesc_perm _ _
    | some r => exact orderByDesc_perm _ _
  · exact orderByDesc_pairwise _ _
  · exact orderByDesc_perm _ _

/-- **C4**: signature verification passes exactly when the supplied signature
equals the lowercase-hex HMAC-SHA256 digest of `orderId + "|" + paymentId`
under the shared secret; the correctly computed signature always passes; a
single-character mutation of the signature always fails; and a
single-character mutation of the order id or payment id fails whenever the
digest of the mutated body differs from the original digest (the digests
differing is collision-freeness of HMAC-SHA256 at that pair — a property of
the hash, not of this code, so it is carried as an explicit hypothesis and
discharged concretely in the witness). -/
theorem signatureOk_spec (secret oid pid sig : String) :
    (signatureOk secret oid pid sig = true ↔ sig = hmacSha256Hex secret (oid ++ "|" ++ pid))
    ∧ signatureOk secret oid pid (hmacSha256Hex secret (oid ++ "|" ++ pid)) = true
    ∧ (∀ i c, i < sig.length → sig.data[i]? ≠ some c →
        signatureOk secret oid pid sig = true →
        signatureOk secret oid pid (mutateAt sig i c) = false)
    ∧ (∀ i c, i < oid.length → oid.data[i]? ≠ some c →
        signatureOk secret oid pid sig = true →
        hmacSha256Hex secret (mutateAt oid i c ++ "|" ++ pid)
          ≠ hmacSha256Hex secret (oid ++ "|" ++ pid) →
        signatureOk secret (mutateAt oid i c) pid sig = false)
    ∧ (∀ i c, i < pid.length → pid.data[i]? ≠ some c →
        signatureOk secret oid pid sig = true →
        hmacSha256Hex secret (oid ++ "|" ++ mutateAt pid i c)
          ≠ hmacSha256Hex secret (oid ++ "|" ++ pid) →
        signatureOk secret oid (mutateAt pid i c) sig = false) := by
  refine ⟨?_, ?_, ?_, ?_, ?_⟩
  · rw [signatureOk_iff]
    exact eq_comm
  · exact signatureOk_iff.mpr rfl
  · intro i c hi hc hok
    have hsig : hmacSha256Hex secret (oid ++ "|" ++ pid) = sig := signatureOk_iff.mp hok
    have hne : mutateAt sig i c ≠ sig := mutateAt_ne sig i c hi hc
    cases hok2 : signatureOk secret oid pid (mutateAt sig i c) with
    | false => rfl
    | true =>
      have := signatureOk_iff.mp hok2
      exact absurd (hsig.symm.trans this) (fun hx => hne hx.symm)
  · intro i c hi hc hok hdiff
    have hsig : hmacSha256Hex secret (oid ++ "|" ++ pid) = sig := signatureOk_iff.mp hok
    cases hok2 : signatureOk secret (mutateAt oid i c) pid sig with
    | false => rfl
    | true =>
      have h2 : hmacSha256Hex secret (mutateAt oid i c ++ "|" ++ pid) = sig :=
        signatureOk_iff.mp hok2
      exact absurd (h2.trans hsig.symm) hdiff
  · intro i c hi hc hok hdiff
    have hsig : hmacSha256Hex secret (oid ++ "|" ++ pid) = sig := signatureOk_iff.mp hok
    cases hok2 : signatureOk secret oid (mutateAt pid i c) sig with
    | false => rfl
    | true =>
      have h2 : hmacSha256Hex secret (oid ++ "|" ++ mutateAt pid i c) = sig :=
        signatureOk_iff.mp hok2
      exact absurd (h2.trans hsig.symm) hdiff

/-- Witness for C4: the correct signature for secret "k", order "o", payment
"p" passes; mutating its first character makes it fail; mutating the order id
to "a" (whose digest concretely differs) makes it fail. -/
theorem signatureOk_spec_witness :
    signatureOk "k" "o" "p" (hmacSha256Hex "k" ("o" ++ "|" ++ "p")) = true
    ∧ signatureOk "k" "o" "p" (mutateAt (hmacSha256Hex "k" ("o" ++ "|" ++ "p")) 0 'z') = false
    ∧ signatureOk "k" (mutateAt "o" 0 'a') "p" (hmacSha256Hex "k" ("o" ++ "|" ++ "p")) = false := by
  refine ⟨(signatureOk_spec "k" "o" "p" (hmacSha256Hex "k" ("o" ++ "|" ++ "p"))).2.1, ?_, ?_⟩
  · apply (signatureOk_spec "k" "o" "p" (hmacSha256Hex "k" ("o" ++ "|" ++ "p"))).2.2.1 0 'z'
    · rw [hmac_k_op_val]
      decide
    · rw [hmac_k_op_val]
      decide
    · exact (signatureOk_spec "k" "o" "p" (hmacSha256Hex "k" ("o" ++ "|" ++ "p"))).2.1
  · apply (signatureOk_spec "k" "o" "p" (hmacSha256Hex "k" ("o" ++ "|" ++ "p"))).2.2.2.1 0 'a'
    · decide
    · decide
    · exact (signatureOk_spec "k" "o" "p" (hmacSha256Hex "k" ("o" ++ "|" ++ "p"))).2.1
    · have hm : mutateAt "o" 0 'a' = "a" := by decide
      rw [hm, hmac_k_ap_val, hmac_k_op_val]
      decide

/-- Case analysis of one request's effect on the students table: every route
leaves it unchanged, except the success path of a `/verify-payment` whose
signature verifies, which appends the single inserted registration. -/
theorem step_students_cases (secret : String) (req : Request) (env : Env) (s : DbState) :
    (step secret req env s).1.students = s.students
    ∨ ∃ oid pid sig info,
        req = Request.verifyPayment oid pid sig info
        ∧ hmacSha256Hex secret (oid ++ "|" ++ pid) = sig
        ∧ (step secret req env s).1.students = s.students ++ [insertedStudent pid info env s] := by
  cases req with
  | verifyPayment oid pid sig info =>
    cases hok : signatureOk secret oid pid sig with
    | false =>
      left
      simp [step, verifyPayment, hok]
    | true =>
      cases hre : env.reselectEmpty with
      | true =>
        left
        simp [step, verifyPayment, hok, hre]
      | false =>
        cases hrows : (s.students ++ [insertedStudent pid info env s]).filter
            (fun st => st.id == (insertedStudent pid info env s).id) with
        | nil =>
          left
          simp [step, verifyPayment, hok, hre, hrows]
        | cons student rest =>
          cases hm : env.mirrorFails with
          | true =>
            left
            simp [step, verifyPayment, hok, hre, hrows, hm]
          | false =>
            cases hem : env.emailFails with
            | true =>
              left
              simp [step, verifyPayment, hok, hre, hrows, hm, hem]
            | false =>
              right
              refine ⟨oid, pid, sig, info, rfl, signatureOk_iff.mp hok, ?_⟩
              simp [step, verifyPayment, hok, hre, hrows, hm, hem]
  | createOrder a b c d e =>
    left
    simp only [step, createOrder]
    repeat' split
    all_goals rfl
  | createUser a b c d =>
    left
    simp only [step, createUser]
    repeat' split
    all_goals rfl
  | lmsUpload file a b c d =>
    left
    simp only [step, lmsUpload]
    repeat' split
    all_goals rfl
  | lmsCreate a b c d e f g h i j =>
    left
    simp only [step, lmsCreate]
    repeat' split
    all_goals rfl
  | lmsList =>
    left
    rfl
  | submitContact a b c d e =>
    left
    simp only [step, submitContact]
    repeat' split
    all_goals rfl
  | submitAbout a b c d =>
    left
    simp only [step, submitAbout]
    repeat' split
    all_goals rfl
  | listStudents =>
    left
    rfl
  | listContacts =>
    left
    rfl
  | listAbouts =>
    left
    rfl
  | lmsDelete i =>
    left
    simp only [step, lmsDelete]
    repeat' split
    all_goals rfl
  | listUsers role =>
    left
    rfl
  | health =>
    left
    rfl
  | downloadStudents =>
    left
    simp only [step]
    split
    all_goals rfl
  | downloadContacts =>
    left
    simp only [step]
    split
    all_goals rfl
  | downloadAbouts =>
    left
    simp only [step]
    split
    all_goals rfl

/-- Run a finite trace of requests against the server. -/
def runAll (secret : String) : List (Request × Env) → DbState → DbState
  | [], s => s
  | (req, env) :: rest, s => runAll secret rest (step secret req env s).1

/-- Every student row present after a trace either was present before it or
was inserted, with status 'successful', by a verified `/verify-payment`
request of the trace. -/
theorem runAll_students_origin (secret : String) (trace : List (Request × Env)) (s : DbState)
    (st : Student) (hmem : st ∈ (runAll secret trace s).students) :
    st ∈ s.students
    ∨ ∃ oid pid sig info env,
        (Request.verifyPayment oid pid sig info, env) ∈ trace
        ∧ hmacSha256Hex secret (oid ++ "|" ++ pid) = sig
        ∧ st.payment_status = "successful" ∧ st.payment_id = pid := by
  induction trace generalizing s with
  | nil => exact Or.inl hmem
  | cons p rest ih =>
    obtain ⟨req, env⟩ := p
    have hmem' : st ∈ (runAll secret rest (step secret req env s).1).students := hmem
    rcases ih _ hmem' with h1 | ⟨oid, pid, sig, info, env2, hin, hsig, h2, h3⟩
    · rcases step_students_cases secret req env s with heq | ⟨oid, pid, sig, info, hreq, hsig, happ⟩
      · rw [heq] at h1
        exact Or.inl h1
      · rw [happ] at h1
        rcases List.mem_append.mp h1 with hmm | hmm
        · exact Or.inl hmm
        · right
          have hst : st = insertedStudent pid info env s := by simpa using hmm
          refine ⟨oid, pid, sig, info, env, ?_, hsig, ?_, ?_⟩
          · rw [hreq]
            exact List.mem_cons_self _ _
          · rw [hst]
            rfl
          · rw [hst]
            rfl
    · exact Or.inr ⟨oid, pid, sig, info, env2, List.mem_cons_of_mem _ hin, hsig, h2, h3⟩

/-- **C6**: the students table is written only by the single insert inside
the verified payment-confirmation transaction. First part: no request — over
the whole HTTP surface — updates or deletes a students row: each step leaves
the table unchanged or appends the one verified registration (so rows are
immutable after creation). Second part: from the fresh database, a Student
Registration row exists only if a verified `/verify-payment` request of the
trace inserted it (existence implies its payment signature was verified);
together with the append case of the first part (a verified confirmation
creates the row), registrations exist if and only if verified. -/
theorem students_written_only_by_verified_payment (secret : String) :
    (∀ req env s, (step secret req env s).1.students = s.students
      ∨ ∃ oid pid sig info,
          req = Request.verifyPayment oid pid sig info
          ∧ hmacSha256Hex secret (oid ++ "|" ++ pid) = sig
          ∧ (step secret req env s).1.students
              = s.students ++ [insertedStudent pid info env s])
    ∧ (∀ trace st, st ∈ (runAll secret trace db0).students →
        ∃ oid pid sig info env,
          (Request.verifyPayment oid pid sig info, env) ∈ trace
          ∧ hmacSha256Hex secret (oid ++ "|" ++ pid) = sig
          ∧ st.payment_status = "successful" ∧ st.payment_id = pid) := by
  constructor
  · exact fun req env s => step_students_cases secret req env s
  · intro trace st hmem
    rcases runAll_students_origin secret trace db0 st hmem with h | h
    · simp [db0] at h
    · exact h

/-- Witness for C6: after the one-request trace consisting of a concrete
verified payment, the row that exists is traced back to that request. -/
theorem students_written_only_by_verified_payment_witness :
    ∃ oid pid sig info env,
      (Request.verifyPayment oid pid sig info, env)
          ∈ [(Request.verifyPayment "o" "p" (hmacSha256Hex "k" ("o" ++ "|" ++ "p")) infoA, envOk)]
      ∧ hmacSha256Hex "k" (oid ++ "|" ++ pid) = sig
      ∧ (insertedStudent "p" infoA envOk db0).payment_status = "successful"
      ∧ (insertedStudent "p" infoA envOk db0).payment_id = pid := by
  have hok : signatureOk "k" "o" "p" (hmacSha256Hex "k" "o|p") = true :=
    signatureOk_iff.mpr rfl
  have hmem : insertedStudent "p" infoA envOk db0
      ∈ (runAll "k" [(Request.verifyPayment "o" "p"
          (hmacSha256Hex "k" ("o" ++ "|" ++ "p")) infoA, envOk)] db0).students := by
    simp [runAll, step, verifyPayment, hok, envOk, db0]
  exact (students_written_only_by_verified_payment "k").2
    [(Request.verifyPayment "o" "p" (hmacSha256Hex "k" ("o" ++ "|" ++ "p")) infoA, envOk)]
    (insertedStudent "p" infoA envOk db0) hmem
